import Mathlib

/-!
Shallow embedding of the Roccat Vulcan 100/120 HID driver core
(`drivers/hid/hid-roccat-vulcan.c`): the special-key sequence table
`vulcan_key_map`, the raw-report decoder `vulcan_raw_event`, and the
input-device configuration hook `vulcan_input_configured`.

Machine integers are modelled as `Nat` (all values involved are small
non-negative constants; no arithmetic overflows can occur). The side
effects of `input_event`/`input_sync` on the input sink are modelled as
an ordered trace of `Effect`s; a dereference of a missing (NULL) input
sink is modelled by the decoder returning `none`.
-/

namespace Vulcan

/-- `#define VULCAN_SPECIAL_KEY_SEQUENCE_LENGTH 5` -/
def VULCAN_SPECIAL_KEY_SEQUENCE_LENGTH : Nat := 5

/-- Linux `EV_KEY` event type (`linux/input-event-codes.h`). -/
def EV_KEY : Nat := 0x01

/-- Linux key code `KEY_NEXTSONG` (`linux/input-event-codes.h`). -/
def KEY_NEXTSONG : Nat := 163

/-- Linux key code `KEY_PLAYPAUSE`. -/
def KEY_PLAYPAUSE : Nat := 164

/-- Linux key code `KEY_PREVIOUSSONG`. -/
def KEY_PREVIOUSSONG : Nat := 165

/-- Linux key code `KEY_STOPCD`. -/
def KEY_STOPCD : Nat := 166

/-- Linux key code `KEY_FN`. -/
def KEY_FN : Nat := 0x1d0

/-- Linux key code `KEY_FN_F1`. -/
def KEY_FN_F1 : Nat := 0x1d2

/-- Linux key code `KEY_FN_F2`. -/
def KEY_FN_F2 : Nat := 0x1d3

/-- Linux key code `KEY_FN_F3`. -/
def KEY_FN_F3 : Nat := 0x1d4

/-- Linux key code `KEY_FN_F4`. -/
def KEY_FN_F4 : Nat := 0x1d5

/-- HID usage page Generic Desktop (`linux/hid.h`). -/
def HID_UP_GENDESK : Nat := 0x00010000

/-- HID usage Generic Desktop / Mouse. -/
def HID_GD_MOUSE : Nat := 0x00010002

/-- HID usage Generic Desktop / Keyboard. -/
def HID_GD_KEYBOARD : Nat := 0x00010006

/-- HID usage Generic Desktop / Keypad. -/
def HID_GD_KEYPAD : Nat := 0x00010007

/-- `struct vulcan_special_key`: key code, event value (1 press / 0
release) and the literal 5-byte firmware sequence. -/
structure vulcan_special_key where
  code : Nat
  value : Nat
  sequence : List Nat
deriving DecidableEq, Repr

/-- `#define MEDIA_KEY_PRESS(which, id)`:
`{ .code = which, .value = 1, .sequence = { 0x03, 0x00, 0x0b, id, 0x00 } }` -/
def MEDIA_KEY_PRESS (which id : Nat) : vulcan_special_key :=
  { code := which, value := 1, sequence := [0x03, 0x00, 0x0b, id, 0x00] }

/-- `#define MEDIA_KEY_RELEASE(which, id)`:
`{ .code = which, .value = 0, .sequence = { 0x03, 0x00, 0x0b, id, 0x01 } }` -/
def MEDIA_KEY_RELEASE (which id : Nat) : vulcan_special_key :=
  { code := which, value := 0, sequence := [0x03, 0x00, 0x0b, id, 0x01] }

/-- `#define FX_KEY_PRESS(which, id)`:
`{ .code = which, .value = 1, .sequence = { 0x03, 0x00, 0xfb, id, 0x01 } }` -/
def FX_KEY_PRESS (which id : Nat) : vulcan_special_key :=
  { code := which, value := 1, sequence := [0x03, 0x00, 0xfb, id, 0x01] }

/-- `#define FX_KEY_RELEASE(which, id)`:
`{ .code = which, .value = 0, .sequence = { 0x03, 0x00, 0xfb, id, 0x00 } }` -/
def FX_KEY_RELEASE (which id : Nat) : vulcan_special_key :=
  { code := which, value := 0, sequence := [0x03, 0x00, 0xfb, id, 0x00] }

/-- `static const struct vulcan_special_key vulcan_key_map[]`.
The final `{ .code = 0 }` sentinel zero-initialises its remaining
fields (C aggregate initialisation). -/
def vulcan_key_map : List vulcan_special_key :=
  [ MEDIA_KEY_PRESS KEY_PREVIOUSSONG 0x21,
    MEDIA_KEY_RELEASE KEY_PREVIOUSSONG 0x21,
    MEDIA_KEY_PRESS KEY_NEXTSONG 0x22,
    MEDIA_KEY_RELEASE KEY_NEXTSONG 0x22,
    MEDIA_KEY_PRESS KEY_PLAYPAUSE 0x23,
    MEDIA_KEY_RELEASE KEY_PLAYPAUSE 0x23,
    MEDIA_KEY_PRESS KEY_STOPCD 0x24,
    MEDIA_KEY_RELEASE KEY_STOPCD 0x24,
    FX_KEY_PRESS KEY_FN_F1 0x10,
    FX_KEY_RELEASE KEY_FN_F1 0x10,
    FX_KEY_PRESS KEY_FN_F2 0x18,
    FX_KEY_RELEASE KEY_FN_F2 0x18,
    FX_KEY_PRESS KEY_FN_F3 0x21,
    FX_KEY_RELEASE KEY_FN_F3 0x21,
    FX_KEY_PRESS KEY_FN_F4 0x20,
    FX_KEY_RELEASE KEY_FN_F4 0x20,
    FX_KEY_PRESS KEY_FN 0x77,
    FX_KEY_RELEASE KEY_FN 0x77,
    { code := 0, value := 0, sequence := [0, 0, 0, 0, 0] } ]

/-- Press/Release actions; in the source a press entry carries
`value = 1` and a release entry `value = 0`. -/
inductive Action where
  | Press : Action
  | Release : Action
deriving DecidableEq, Repr

/-- The `input_event` value corresponding to an action. -/
def actionValue : Action → Nat
  | Action.Press => 1
  | Action.Release => 0

/-- One observable call on the input sink: `input_event(dev, type, code,
value)` or `input_sync(dev)`. -/
inductive Effect where
  | event : Nat → Nat → Nat → Effect
  | sync : Effect
deriving DecidableEq, Repr

/-- The scan loop of `vulcan_raw_event`:
`for (i = 0; vulcan_key_map[i].code; i++) if (memcmp(data, ...sequence, size) == 0) ...`.
It stops at the first entry with `code == 0` and returns the first entry
whose 5-byte sequence equals the report data. -/
def scanTable : List vulcan_special_key → List Nat → Option vulcan_special_key
  | [], _ => none
  | e :: rest, data =>
    if e.code = 0 then none
    else if e.sequence = data then some e
    else scanTable rest data

/-- `static int vulcan_raw_event(...)`. `hasInput` states whether
`drvdata->input` is non-NULL. The result is `none` when the C code
dereferences a NULL `drvdata->input` inside `input_event` (a crash);
otherwise `some (handled, trace)` where `handled` is the nonzero return
value and `trace` the ordered calls made on the input sink. -/
def vulcan_raw_event (hasInput : Bool) (data : List Nat) : Option (Bool × List Effect) :=
  if data.length ≠ VULCAN_SPECIAL_KEY_SEQUENCE_LENGTH then some (false, [])
  else
    match scanTable vulcan_key_map data with
    | some e =>
      if hasInput then some (true, [Effect.event EV_KEY e.code e.value, Effect.sync])
      else none
    | none => some (false, [])

/-- The relevant fields of `struct input_dev`: display name, key code
table bound, and the key-capability bitmap (modelled as the list of set
bits). -/
structure input_dev where
  name : String
  keycodemax : Nat
  keybit : List Nat
deriving DecidableEq, Repr

/-- `set_bit(bit, keybit)`: mark a key code as present in the bitmap. -/
def set_bit (bit : Nat) (bits : List Nat) : List Nat :=
  if bit ∈ bits then bits else bit :: bits

/-- The `switch (hi->application)` of `vulcan_input_configured`,
choosing a display-name suffix (`NULL`, i.e. `none`, when the role is
unrecognised). -/
def vulcan_suffix (application : Nat) : Option String :=
  if application = HID_GD_KEYBOARD then some "Main Keyboard"
  else if application = HID_GD_MOUSE then some "Extra Keyboard"
  else if application = HID_GD_KEYPAD then some "Misc Device"
  else if application = HID_UP_GENDESK then some "LED Device"
  else none

/-- Outcome of `vulcan_input_configured`: the mutated `input_dev`,
whether `drvdata->input` was populated, and the return value. -/
structure ConfigResult where
  input : input_dev
  sinkStored : Bool
  retval : Int
deriving DecidableEq, Repr

/-- `static int vulcan_input_configured(...)`. `hdevName` is
`hdev->name`, `allocOk` states whether `devm_kasprintf` succeeds, `hi`
is the incoming `hi->input`, `application` is `hi->application`. -/
def vulcan_input_configured (hdevName : String) (allocOk : Bool)
    (hi : input_dev) (application : Nat) : ConfigResult :=
  let dev1 : input_dev :=
    { hi with
      keycodemax := KEY_FN_F4,
      keybit := set_bit KEY_FN (set_bit KEY_FN_F4 (set_bit KEY_FN_F3
        (set_bit KEY_FN_F2 (set_bit KEY_FN_F1 hi.keybit)))) }
  let dev2 : input_dev :=
    match vulcan_suffix application with
    | some s => if allocOk then { dev1 with name := hdevName ++ " " ++ s } else dev1
    | none => dev1
  { input := dev2, sinkStored := true, retval := 0 }

/-- The distinct FN-related key codes that `vulcan_input_configured`
declares in the key bitmap. -/
def fnKeyCodes : List Nat := [KEY_FN_F1, KEY_FN_F2, KEY_FN_F3, KEY_FN_F4, KEY_FN]

/-- A successful scan returns an entry of the table, whose sequence is
the report data and whose code is nonzero. -/
theorem scanTable_some (t : List vulcan_special_key) (data : List Nat)
    (e : vulcan_special_key) (h : scanTable t data = some e) :
    e ∈ t ∧ e.sequence = data ∧ e.code ≠ 0 := by
  induction t with
  | nil => simp [scanTable] at h
  | cons a rest ih =>
    unfold scanTable at h
    by_cases h0 : a.code = 0
    · simp [h0] at h
    · rw [if_neg h0] at h
      by_cases hs : a.sequence = data
      · rw [if_pos hs] at h
        obtain rfl : a = e := Option.some.inj h
        exact ⟨List.mem_cons_self a rest, hs, h0⟩
      · rw [if_neg hs] at h
        obtain ⟨h1, h2, h3⟩ := ih h
        exact ⟨List.mem_cons_of_mem a h1, h2, h3⟩

/-- A table containing a sentinel scans the same way whatever entries
sit after the whole table: the scan never reads past the sentinel. -/
theorem scanTable_sentinel_append (l post : List vulcan_special_key) (data : List Nat)
    (h : ∃ s ∈ l, s.code = 0) :
    scanTable (l ++ post) data = scanTable l data := by
  induction l with
  | nil => exact absurd h (by simp)
  | cons a rest ih =>
    show scanTable (a :: (rest ++ post)) data = scanTable (a :: rest) data
    unfold scanTable
    by_cases h0 : a.code = 0
    · rw [if_pos h0, if_pos h0]
    · rw [if_neg h0, if_neg h0]
      by_cases hs : a.sequence = data
      · rw [if_pos hs, if_pos hs]
      · rw [if_neg hs, if_neg hs]
        apply ih
        obtain ⟨s, hsm, hsc⟩ := h
        rcases List.mem_cons.mp hsm with rfl | hmem
        · exact absurd hsc h0
        · exact ⟨s, hmem, hsc⟩

/-- Membership after `set_bit`: the new bit, or anything already set. -/
theorem mem_set_bit (c b : Nat) (l : List Nat) :
    c ∈ set_bit b l ↔ c = b ∨ c ∈ l := by
  unfold set_bit
  by_cases hb : b ∈ l
  · rw [if_pos hb]
    constructor
    · exact fun h => Or.inr h
    · rintro (rfl | h)
      · exact hb
      · exact h
  · rw [if_neg hb]
    exact List.mem_cons

/-- The key bitmap produced by `vulcan_input_configured` does not depend
on the name-suffix branch: it is the incoming bitmap plus the five
FN-related bits. -/
theorem configured_keybit (hdevName : String) (allocOk : Bool)
    (hi : input_dev) (app : Nat) :
    (vulcan_input_configured hdevName allocOk hi app).input.keybit =
      set_bit KEY_FN (set_bit KEY_FN_F4 (set_bit KEY_FN_F3
        (set_bit KEY_FN_F2 (set_bit KEY_FN_F1 hi.keybit)))) := by
  unfold vulcan_input_configured
  cases vulcan_suffix app with
  | none => rfl
  | some s => cases allocOk <;> rfl

/-- The display name produced by `vulcan_input_configured`: the base
device name plus the role suffix when the role is recognised and the
allocation succeeds, otherwise the unchanged original name. -/
theorem configured_name (hdevName : String) (allocOk : Bool)
    (hi : input_dev) (app : Nat) :
    (vulcan_input_configured hdevName allocOk hi app).input.name =
      match vulcan_suffix app with
      | some s => if allocOk then hdevName ++ " " ++ s else hi.name
      | none => hi.name := by
  unfold vulcan_input_configured
  cases vulcan_suffix app with
  | none => rfl
  | some s => cases allocOk <;> rfl

/-- C1: every non-sentinel entry of `vulcan_key_map`, fed to
`vulcan_raw_event` as its exact 5-byte sequence, is handled and
synthesizes exactly that entry's key code and value; in particular
`[0x03,0x00,0x0b,0x21,0x00]` yields `(KEY_PREVIOUSSONG, Press)` and
`[0x03,0x00,0x0b,0x21,0x01]` yields `(KEY_PREVIOUSSONG, Release)`. -/
theorem C1_decode_table_entries (e : vulcan_special_key)
    (he : e ∈ vulcan_key_map) (hc : e.code ≠ 0) :
    vulcan_raw_event true e.sequence =
      some (true, [Effect.event EV_KEY e.code e.value, Effect.sync]) ∧
    vulcan_raw_event true [0x03, 0x00, 0x0b, 0x21, 0x00] =
      some (true, [Effect.event EV_KEY KEY_PREVIOUSSONG (actionValue Action.Press),
        Effect.sync]) ∧
    vulcan_raw_event true [0x03, 0x00, 0x0b, 0x21, 0x01] =
      some (true, [Effect.event EV_KEY KEY_PREVIOUSSONG (actionValue Action.Release),
        Effect.sync]) := by
  refine ⟨?_, by decide, by decide⟩
  revert hc
  revert he
  revert e
  decide

/-- C1 witness: the theorem applied to the `KEY_PREVIOUSSONG` press
entry of the table. -/
theorem C1_decode_table_entries_witness :
    vulcan_raw_event true (MEDIA_KEY_PRESS KEY_PREVIOUSSONG 0x21).sequence =
      some (true, [Effect.event EV_KEY (MEDIA_KEY_PRESS KEY_PREVIOUSSONG 0x21).code
        (MEDIA_KEY_PRESS KEY_PREVIOUSSONG 0x21).value, Effect.sync]) :=
  (C1_decode_table_entries (MEDIA_KEY_PRESS KEY_PREVIOUSSONG 0x21)
    (by decide) (by decide)).1

/-- C2: a raw report whose length is not exactly 5 bytes is never
handled and produces no input-sink effects, whatever its content and
whether or not the sink is configured. -/
theorem C2_wrong_length_not_handled (hasInput : Bool) (data : List Nat)
    (h : data.length ≠ VULCAN_SPECIAL_KEY_SEQUENCE_LENGTH) :
    vulcan_raw_event hasInput data = some (false, []) := by
  unfold vulcan_raw_event
  rw [if_pos h]

/-- C2 witness: the length-3 report of the spec scenario. -/
theorem C2_wrong_length_not_handled_witness :
    vulcan_raw_event true [0x01, 0x02, 0x03] = some (false, []) :=
  C2_wrong_length_not_handled true [0x01, 0x02, 0x03] (by decide)

/-- C3: with no configured input sink, a 5-byte report that matches a
table entry makes `vulcan_raw_event` call `input_event` on the NULL
sink (modelled as `none`, a crash): the code is NOT the defensive
no-op the claim describes. Reports that do not match (here, a
non-matching 5-byte report and a wrong-length report) are indeed
no-ops returning "not handled". -/
theorem C3_missing_sink_dereferences_null :
    vulcan_raw_event false [0x03, 0x00, 0x0b, 0x21, 0x00] = none ∧
    vulcan_raw_event false [0x00, 0x00, 0x00, 0x00, 0x01] = some (false, []) ∧
    vulcan_raw_event false [0x01, 0x02, 0x03] = some (false, []) := by
  decide

/-- C10: the all-zero 5-byte report is not handled; the scan result is
unchanged by any entries placed after the sentinel-terminated table
(the scan never reads past the sentinel); and a successful scan never
returns an entry with `code = 0`, so the sentinel's zeroed pattern is
never matched. -/
theorem C10_sentinel_stops_scan (hasInput : Bool) (data : List Nat)
    (post : List vulcan_special_key) (e : vulcan_special_key) :
    vulcan_raw_event hasInput [0x00, 0x00, 0x00, 0x00, 0x00] = some (false, []) ∧
    scanTable (vulcan_key_map ++ post) data = scanTable vulcan_key_map data ∧
    (scanTable vulcan_key_map data = some e → e.code ≠ 0) := by
  refine ⟨?_, ?_, ?_⟩
  · cases hasInput <;> decide
  · exact scanTable_sentinel_append vulcan_key_map post data (by decide)
  · intro h
    exact (scanTable_some vulcan_key_map data e h).2.2

/-- C10 witness: instantiated at a matching report, extra entries after
the sentinel, and the entry the scan returns. -/
theorem C10_sentinel_stops_scan_witness :
    vulcan_raw_event true [0x00, 0x00, 0x00, 0x00, 0x00] = some (false, []) ∧
    scanTable (vulcan_key_map ++ [MEDIA_KEY_PRESS 0x30 0x55])
        (FX_KEY_PRESS KEY_FN 0x77).sequence =
      scanTable vulcan_key_map (FX_KEY_PRESS KEY_FN 0x77).sequence ∧
    (FX_KEY_PRESS KEY_FN 0x77).code ≠ 0 := by
  have h := C10_sentinel_stops_scan true (FX_KEY_PRESS KEY_FN 0x77).sequence
    [MEDIA_KEY_PRESS 0x30 0x55] (FX_KEY_PRESS KEY_FN 0x77)
  exact ⟨h.1, h.2.1, h.2.2 (by decide)⟩

/-- C4 counterexample: `KEY_PREVIOUSSONG` appears as a non-sentinel key
code of `vulcan_key_map`, yet after `vulcan_input_configured` runs on a
device whose bitmap was empty, it is absent from the key bitmap: the
configurator does not declare the media key codes. -/
theorem C4_media_key_not_declared :
    MEDIA_KEY_PRESS KEY_PREVIOUSSONG 0x21 ∈ vulcan_key_map ∧
    (MEDIA_KEY_PRESS KEY_PREVIOUSSONG 0x21).code ≠ 0 ∧
    KEY_PREVIOUSSONG ∉ (vulcan_input_configured "Device X" true
      { name := "Device X", keycodemax := 0, keybit := [] }
      HID_GD_KEYBOARD).input.keybit := by
  decide

/-- C4 amended: `vulcan_input_configured` adds exactly the FN-related
key codes (`KEY_FN_F1`..`KEY_FN_F4`, `KEY_FN`) to the key bitmap, so a
key code of the Sequence Table is declared after configuration iff it
is one of those FN codes or was already declared beforehand; the media
key codes are not added by the configurator. -/
theorem C4_fn_keys_declared (hdevName : String) (allocOk : Bool)
    (hi : input_dev) (app : Nat) (e : vulcan_special_key)
    (he : e ∈ vulcan_key_map) (hc : e.code ≠ 0) :
    e.code ∈ (vulcan_input_configured hdevName allocOk hi app).input.keybit ↔
      e.code ∈ fnKeyCodes ∨ e.code ∈ hi.keybit := by
  rw [configured_keybit]
  simp only [mem_set_bit, fnKeyCodes, List.mem_cons, List.not_mem_nil, or_false]
  tauto

/-- C4 witness: the `KEY_FN_F1` press entry on a device with an empty
incoming bitmap. -/
theorem C4_fn_keys_declared_witness :
    (FX_KEY_PRESS KEY_FN_F1 0x10).code ∈ (vulcan_input_configured "Device X" true
        { name := "Device X", keycodemax := 0, keybit := [] }
        HID_GD_KEYBOARD).input.keybit ↔
      (FX_KEY_PRESS KEY_FN_F1 0x10).code ∈ fnKeyCodes ∨
      (FX_KEY_PRESS KEY_FN_F1 0x10).code ∈
        ({ name := "Device X", keycodemax := 0, keybit := [] } : input_dev).keybit :=
  C4_fn_keys_declared "Device X" true
    { name := "Device X", keycodemax := 0, keybit := [] } HID_GD_KEYBOARD
    (FX_KEY_PRESS KEY_FN_F1 0x10) (by decide) (by decide)

/-- Every entry of `vulcan_key_map` has a 5-byte sequence and an event
value that is either 1 (press) or 0 (release). -/
theorem vulcan_key_map_entry_facts :
    ∀ e ∈ vulcan_key_map,
      e.sequence.length = VULCAN_SPECIAL_KEY_SEQUENCE_LENGTH ∧
      (e.value = actionValue Action.Press ∨ e.value = actionValue Action.Release) := by
  decide

/-- C5: on a report the scan matches, `vulcan_raw_event` with a
configured sink emits exactly one `input_event` — `EV_KEY` with the
entry's code and its value, 1 for a press entry and 0 for a release
entry — followed by exactly one `input_sync`, in that order, and
returns handled. -/
theorem C5_matched_report_single_event_sync (data : List Nat)
    (e : vulcan_special_key) (h : scanTable vulcan_key_map data = some e) :
    vulcan_raw_event true data =
      some (true, [Effect.event EV_KEY e.code e.value, Effect.sync]) ∧
    (e.value = actionValue Action.Press ∨ e.value = actionValue Action.Release) := by
  obtain ⟨hmem, hseq, hcode⟩ := scanTable_some vulcan_key_map data e h
  obtain ⟨hl, hv⟩ := vulcan_key_map_entry_facts e hmem
  have hlen : data.length = VULCAN_SPECIAL_KEY_SEQUENCE_LENGTH := by
    rw [← hseq]
    exact hl
  refine ⟨?_, hv⟩
  unfold vulcan_raw_event
  rw [if_neg (fun hne => hne hlen), h]
  rfl

/-- C5 witness: the `KEY_PLAYPAUSE` release report. -/
theorem C5_matched_report_single_event_sync_witness :
    vulcan_raw_event true [0x03, 0x00, 0x0b, 0x23, 0x01] =
      some (true, [Effect.event EV_KEY (MEDIA_KEY_RELEASE KEY_PLAYPAUSE 0x23).code
        (MEDIA_KEY_RELEASE KEY_PLAYPAUSE 0x23).value, Effect.sync]) :=
  (C5_matched_report_single_event_sync [0x03, 0x00, 0x0b, 0x23, 0x01]
    (MEDIA_KEY_RELEASE KEY_PLAYPAUSE 0x23) (by decide)).1

/-- C6: a 5-byte report that equals no non-sentinel entry's sequence is
not handled and produces no input-sink effects at all. -/
theorem C6_unmatched_report_no_effect (hasInput : Bool) (data : List Nat)
    (hlen : data.length = VULCAN_SPECIAL_KEY_SEQUENCE_LENGTH)
    (h : ∀ e ∈ vulcan_key_map, e.code ≠ 0 → e.sequence ≠ data) :
    vulcan_raw_event hasInput data = some (false, []) := by
  have hscan : scanTable vulcan_key_map data = none := by
    cases hx : scanTable vulcan_key_map data with
    | none => rfl
    | some e =>
      obtain ⟨hmem, hseq, hcode⟩ := scanTable_some vulcan_key_map data e hx
      exact absurd hseq (h e hmem hcode)
  unfold vulcan_raw_event
  rw [if_neg (fun hne => hne hlen), hscan]

/-- C6 witness: a 5-byte report present in no table entry. -/
theorem C6_unmatched_report_no_effect_witness :
    vulcan_raw_event true [0x03, 0x00, 0x0b, 0x21, 0x02] = some (false, []) :=
  C6_unmatched_report_no_effect true [0x03, 0x00, 0x0b, 0x21, 0x02]
    (by decide) (by decide)

/-- C7: the 5-byte sequences of the non-sentinel entries of
`vulcan_key_map` are pairwise distinct, and consequently each
non-sentinel entry is the entry the first-match-wins scan returns on
its own sequence (first-match scanning agrees with unordered lookup). -/
theorem C7_patterns_unique :
    (vulcan_key_map.filter (fun e => e.code != 0)).Pairwise
      (fun a b => a.sequence ≠ b.sequence) ∧
    (∀ e ∈ vulcan_key_map, e.code ≠ 0 →
      scanTable vulcan_key_map e.sequence = some e) := by
  decide

/-- C7 witness: the scan on the `KEY_STOPCD` press pattern returns that
very entry. -/
theorem C7_patterns_unique_witness :
    scanTable vulcan_key_map (MEDIA_KEY_PRESS KEY_STOPCD 0x24).sequence =
      some (MEDIA_KEY_PRESS KEY_STOPCD 0x24) :=
  C7_patterns_unique.2 (MEDIA_KEY_PRESS KEY_STOPCD 0x24) (by decide) (by decide)

/-- C8: `vulcan_input_configured` derives the display name from the
device's declared application: `HID_GD_KEYBOARD` yields base name, a
space, then "Main Keyboard" (for base "Device X" the concrete name
"Device X Main Keyboard"), and the other recognised roles yield their
fixed suffixes; an unrecognised application leaves the original input
device name unchanged. -/
theorem C8_display_name (hdevName : String) (hi : input_dev) (app : Nat) :
    (vulcan_input_configured hdevName true hi HID_GD_KEYBOARD).input.name =
      hdevName ++ " " ++ "Main Keyboard" ∧
    (vulcan_input_configured "Device X" true hi HID_GD_KEYBOARD).input.name =
      "Device X Main Keyboard" ∧
    (vulcan_input_configured hdevName true hi HID_GD_MOUSE).input.name =
      hdevName ++ " " ++ "Extra Keyboard" ∧
    (vulcan_input_configured hdevName true hi HID_GD_KEYPAD).input.name =
      hdevName ++ " " ++ "Misc Device" ∧
    (vulcan_input_configured hdevName true hi HID_UP_GENDESK).input.name =
      hdevName ++ " " ++ "LED Device" ∧
    (app ∉ [HID_GD_KEYBOARD, HID_GD_MOUSE, HID_GD_KEYPAD, HID_UP_GENDESK] →
      (vulcan_input_configured hdevName true hi app).input.name = hi.name) := by
  refine ⟨by rw [configured_name]; rfl, by rw [configured_name]; rfl,
    by rw [configured_name]; rfl, by rw [configured_name]; rfl,
    by rw [configured_name]; rfl, ?_⟩
  intro hna
  simp only [List.mem_cons, List.not_mem_nil, or_false, not_or] at hna
  obtain ⟨h1, h2, h3, h4⟩ := hna
  rw [configured_name]
  have hs : vulcan_suffix app = none := by
    unfold vulcan_suffix
    rw [if_neg h1, if_neg h2, if_neg h3, if_neg h4]
  rw [hs]

/-- C8 witness: an unrecognised application (0) leaves the name of the
"Device X" input device unchanged. -/
theorem C8_display_name_witness :
    (vulcan_input_configured "Device X" true
      { name := "Device X", keycodemax := 0, keybit := [] } 0).input.name =
      "Device X" :=
  (C8_display_name "Device X"
    { name := "Device X", keycodemax := 0, keybit := [] } 0).2.2.2.2.2 (by decide)

/-- C9: when building the suffixed name fails (`devm_kasprintf` returns
NULL), `vulcan_input_configured` still returns 0 (success), keeps the
original input-device name unchanged, and still stores the input sink —
for every base name, incoming device and application. -/
theorem C9_name_alloc_failure_nonfatal (hdevName : String) (hi : input_dev)
    (app : Nat) :
    (vulcan_input_configured hdevName false hi app).input.name = hi.name ∧
    (vulcan_input_configured hdevName false hi app).retval = 0 ∧
    (vulcan_input_configured hdevName false hi app).sinkStored = true := by
  refine ⟨?_, ?_, ?_⟩
  · rw [configured_name]
    cases vulcan_suffix app <;> rfl
  · unfold vulcan_input_configured
    cases vulcan_suffix app <;> rfl
  · unfold vulcan_input_configured
    cases vulcan_suffix app <;> rfl

end Vulcan
